import Mathlib

/-!
Shallow embedding of the veilmail-node client library (transport layer,
error taxonomy, and the templates facade shape mapping), together with
theorems settling the specification claims.

Sources embedded:
- src/unnamed/part_012 (errors.ts): the error class hierarchy and
  `parseApiError`.
- src/src/index.ts (client.ts): `HttpClient` construction, `request`,
  and the `VeilMail` constructor.
- src/unnamed/part_006 (resources/templates.ts): `Templates.create`,
  `Templates.mapTemplate`.
- src/src/resources/emails.ts: the `/v1/emails` path constant.
JavaScript runtime builtins used by the code (`parseInt`,
`String.prototype.includes`, `URL`, `URLSearchParams`) are modelled
from their standard behaviour, restricted to the shapes the code uses.
-/

namespace VeilMailSdk

/-- The `details` payload of an error body. In TypeScript it is a
`Record<string, unknown>`; the code only ever inspects the `piiTypes`
entry (cast to `string[]`), so the model keeps that entry typed and the
remaining entries opaque. -/
structure ErrorDetails where
  piiTypes : Option (List String)
  extra : List (String × String)
deriving DecidableEq, Repr

/-- The `error` object of an API error envelope. The TypeScript
interface declares `code` and `message` as required, but the runtime
value is an unchecked cast of parsed JSON, and `parseApiError` reads it
only through optional chaining, so every field is optional here. -/
structure ApiErrorInfo where
  code : Option String
  message : Option String
  details : Option ErrorDetails
deriving DecidableEq, Repr

/-- The API error envelope (`{ error: { code, message, details } }`).
The `error` property is optional for the same cast-of-JSON reason. -/
structure ApiErrorResponse where
  error : Option ApiErrorInfo
deriving DecidableEq, Repr

/-- A JavaScript number as produced by `parseInt`: either an integer or
`NaN`. -/
inductive JsNumber where
  | num (n : Int)
  | nan
deriving DecidableEq, Repr

/-- Model of the JavaScript builtin `parseInt(s, 10)`: skip leading
whitespace, an optional sign, then read a maximal decimal-digit run;
`NaN` when no digit is found. -/
def jsParseInt (s : String) : JsNumber :=
  let cs := s.toList.dropWhile (fun c => c = ' ' ∨ c = '\t' ∨ c = '\n' ∨ c = '\r')
  let signed : Bool × List Char :=
    match cs with
    | '-' :: rest => (true, rest)
    | '+' :: rest => (false, rest)
    | _ => (false, cs)
  let ds := signed.2.takeWhile Char.isDigit
  if ds.isEmpty then .nan
  else
    let v : Nat := ds.foldl (fun a c => a * 10 + (c.toNat - 48)) 0
    .num (if signed.1 then -(v : Int) else (v : Int))

/-- The error taxonomy of errors.ts as a tagged union: one constructor
per error class. Each constructor carries exactly the data its class
constructor stores beyond the fixed per-class code/status. The `base`
constructor is the `VeilMailError` base class built directly by the
default branch of `parseApiError`. -/
inductive VeilMailError where
  | authenticationError (message : String)
  | forbiddenError (message : String)
  | notFoundError (resource : String) (id : Option String)
  | validationError (message : String) (details : Option ErrorDetails)
  | piiDetectedError (message : String) (piiTypes : List String)
  | rateLimitError (message : String) (retryAfter : Option JsNumber)
  | serverError (message : String) (status : Nat)
  | timeoutError (timeoutMs : Nat)
  | networkError (message : String)
  | base (message : String) (code : String) (status : Option Nat)
      (details : Option ErrorDetails)
deriving DecidableEq, Repr

/-- The error kind, for classification statements. -/
inductive ErrorKind where
  | authentication
  | forbidden
  | notFound
  | validation
  | piiDetected
  | rateLimited
  | server
  | timeout
  | network
  | genericApi
deriving DecidableEq, Repr

/-- The kind of each error variant. -/
def VeilMailError.kind : VeilMailError → ErrorKind
  | .authenticationError _ => .authentication
  | .forbiddenError _ => .forbidden
  | .notFoundError _ _ => .notFound
  | .validationError _ _ => .validation
  | .piiDetectedError _ _ => .piiDetected
  | .rateLimitError _ _ => .rateLimited
  | .serverError _ _ => .server
  | .timeoutError _ => .timeout
  | .networkError _ => .network
  | .base _ _ _ _ => .genericApi

/-- The `message` property of each error instance, as set by the class
constructors: `NotFoundError` builds its message from the resource name
and optional id, `TimeoutError` from the timeout duration; every other
class stores the message it is given. -/
def VeilMailError.message : VeilMailError → String
  | .authenticationError m => m
  | .forbiddenError m => m
  | .notFoundError resource id =>
    match id with
    | some i => resource ++ " with ID \x27" ++ i ++ "\x27 not found"
    | none => resource ++ " not found"
  | .validationError m _ => m
  | .piiDetectedError m _ => m
  | .rateLimitError m _ => m
  | .serverError m _ => m
  | .timeoutError t => "Request timed out after " ++ toString t ++ "ms"
  | .networkError m => m
  | .base m _ _ _ => m

/-- The `code` property of each error instance (fixed per class, except
the base class which stores the code it is given). -/
def VeilMailError.code : VeilMailError → String
  | .authenticationError _ => "authentication_error"
  | .forbiddenError _ => "forbidden"
  | .notFoundError _ _ => "not_found"
  | .validationError _ _ => "validation_error"
  | .piiDetectedError _ _ => "pii_detected"
  | .rateLimitError _ _ => "rate_limit"
  | .serverError _ _ => "server_error"
  | .timeoutError _ => "timeout"
  | .networkError _ => "network_error"
  | .base _ c _ _ => c

/-- The `status` property of each error instance. `ValidationError`
passes the literal 400 to its superclass constructor; `TimeoutError`
and `NetworkError` pass no status. -/
def VeilMailError.status : VeilMailError → Option Nat
  | .authenticationError _ => some 401
  | .forbiddenError _ => some 403
  | .notFoundError _ _ => some 404
  | .validationError _ _ => some 400
  | .piiDetectedError _ _ => some 422
  | .rateLimitError _ _ => some 429
  | .serverError _ s => some s
  | .timeoutError _ => none
  | .networkError _ => none
  | .base _ _ s _ => s

/-- A JavaScript `Error` value, identified by its `name` and `message`
properties, as inspected by the catch block of `HttpClient.request`. -/
structure JsError where
  name : String
  message : String
deriving DecidableEq, Repr

/-- A parsed JSON document, projected onto what the client reads: for a
JSON object, its optional `error` property (when that property is an
object, its code/message/details fields) plus opaque other entries; any
non-object document is kept as raw text. -/
inductive JsonValue where
  | objectVal (error : Option ApiErrorInfo) (extra : List (String × String))
  | otherVal (raw : String)
deriving DecidableEq, Repr

/-- A fetch `Response`: status, status text, the two headers the client
reads, and the outcomes of awaiting `response.json()` respectively
`response.text()` (each can reject, e.g. a JSON syntax error, or an
abort while the body is being read). -/
structure Response where
  status : Nat
  statusText : String
  retryAfterHeader : Option String
  contentTypeHeader : Option String
  jsonBody : Except JsError JsonValue
  textBody : Except JsError String
deriving Repr

/-- `body?.error` of the body handed to `parseApiError`. -/
def errInfo (body : Option ApiErrorResponse) : Option ApiErrorInfo :=
  body.bind ApiErrorResponse.error

/-- `body?.error?.message ?? response.statusText`. -/
def errMessage (response : Response) (body : Option ApiErrorResponse) : String :=
  ((errInfo body).bind ApiErrorInfo.message).getD response.statusText

/-- `body?.error?.code ?? 'unknown_error'`. -/
def errCode (body : Option ApiErrorResponse) : String :=
  ((errInfo body).bind ApiErrorInfo.code).getD "unknown_error"

/-- `body?.error?.details`. -/
def errDetails (body : Option ApiErrorResponse) : Option ErrorDetails :=
  (errInfo body).bind ApiErrorInfo.details

/-- `parseApiError` from errors.ts: switch on the HTTP status. The 422
branch checks `code === 'pii_detected' && details?.piiTypes` (a present
`piiTypes` array is always truthy in JavaScript, so presence is the
test); the 429 branch reads the Retry-After header and applies
`parseInt` to it when it is truthy (non-null and non-empty). -/
def parseApiError (response : Response) (body : Option ApiErrorResponse) :
    VeilMailError :=
  let status := response.status
  let message := errMessage response body
  let code := errCode body
  let details := errDetails body
  if status = 401 then .authenticationError message
  else if status = 403 then .forbiddenError message
  else if status = 404 then .notFoundError "Resource" none
  else if status = 422 then
    if code = "pii_detected" then
      match details.bind ErrorDetails.piiTypes with
      | some piiTypes => .piiDetectedError message piiTypes
      | none => .validationError message details
    else .validationError message details
  else if status = 429 then
    let retryAfter := response.retryAfterHeader
    .rateLimitError message
      (match retryAfter with
       | some s => if s = "" then none else some (jsParseInt s)
       | none => none)
  else if 500 ≤ status then .serverError message status
  else .base message code (some status) details

/-- Whether `pat` occurs as a contiguous subsequence of `l`. -/
def containsSeq (pat : List Char) : List Char → Bool
  | [] => pat.isEmpty
  | c :: rest => pat.isPrefixOf (c :: rest) || containsSeq pat rest

/-- Model of the JavaScript builtin `s.includes(pat)`: substring
containment. -/
def jsIncludes (s pat : String) : Bool :=
  containsSeq pat.toList s.toList

/-- Model of the JavaScript builtin `s.startsWith(pre)` (also used for
the TypeScript `String.prototype.startsWith` calls in the client
constructor): prefix test. -/
def jsStartsWith (s pre : String) : Bool :=
  pre.toList.isPrefixOf s.toList

/-- The content-type test of `HttpClient.request`:
`contentType?.includes('application/json')`, falsy when the header is
absent. -/
def contentTypeIsJson (contentType : Option String) : Bool :=
  match contentType with
  | some s => jsIncludes s "application/json"
  | none => false

/-- `response.ok` per the fetch standard: status in the range 200-299. -/
def responseOk (status : Nat) : Bool :=
  200 ≤ status && status ≤ 299

/-- The outcome of the awaited `fetch` call: either a response, or a
rejection with a JavaScript error (AbortError on cancellation,
TypeError on network failure, ...). -/
inductive FetchOutcome where
  | success (response : Response)
  | failure (e : JsError)
deriving Repr

/-- The value `HttpClient.request` resolves to: `undefined` for a 204,
the parsed JSON document when the content-type indicates JSON, raw text
otherwise. -/
inductive RequestValue where
  | undefinedVal
  | jsonVal (v : JsonValue)
  | textVal (s : String)
deriving Repr

/-- The observable outcome of one `HttpClient.request` call: a resolved
value, a rejection with a typed SDK error, or a rejection with a
non-SDK JavaScript error propagated unchanged by the catch block. -/
inductive RequestResult where
  | ok (v : RequestValue)
  | err (e : VeilMailError)
  | rethrown (e : JsError)
deriving Repr

/-- The catch block of `HttpClient.request`, applied to a JavaScript
error thrown inside the try block: an error named AbortError becomes a
`TimeoutError` carrying the configured timeout; a TypeError whose
message mentions fetch becomes a `NetworkError`; anything else is
rethrown unchanged. (The caught values here are all `Error` instances,
so the `instanceof Error` guard is always satisfied.) -/
def handleCaught (timeoutMs : Nat) (e : JsError) : RequestResult :=
  if e.name = "AbortError" then .err (.timeoutError timeoutMs)
  else if e.name = "TypeError" ∧ jsIncludes e.message "fetch" then
    .err (.networkError ("Network error: " ++ e.message))
  else .rethrown e

/-- The cast `body as ApiErrorResponse | null` applied to the parsed
body before it is handed to `parseApiError`. A raw-text body or a
non-object JSON document has no `error` property, so through the
optional chains of `parseApiError` it behaves exactly like an envelope
whose `error` is absent. -/
def castErrorBody : RequestValue → Option ApiErrorResponse
  | .undefinedVal => none
  | .jsonVal (.objectVal error _) => some { error := error }
  | .jsonVal (.otherVal _) => some { error := none }
  | .textVal _ => some { error := none }

/-- `HttpClient.request` from client.ts, as a function of the fetch
outcome. A 204 returns `undefined` before any body read. Otherwise the
body is read as JSON or text according to the content-type header; a
body-read rejection is thrown inside the try block and so routed
through the catch block. A non-ok status throws the `parseApiError`
result: its name is an SDK class name, never AbortError or TypeError,
so the catch block rethrows it unchanged and it is returned directly
here. Timer bookkeeping (`setTimeout` / `clearTimeout`) has no
observable effect on the returned value and is omitted. -/
def request (timeoutMs : Nat) (outcome : FetchOutcome) : RequestResult :=
  match outcome with
  | .failure e => handleCaught timeoutMs e
  | .success response =>
    if response.status = 204 then .ok .undefinedVal
    else
      let bodyResult : Except JsError RequestValue :=
        if contentTypeIsJson response.contentTypeHeader then
          response.jsonBody.map RequestValue.jsonVal
        else
          response.textBody.map RequestValue.textVal
      match bodyResult with
      | .error e => handleCaught timeoutMs e
      | .ok bodyVal =>
        if responseOk response.status then .ok bodyVal
        else .err (parseApiError response (castErrorBody bodyVal))

/-- Client configuration. The TypeScript interface declares `apiKey` as
a required string, but the constructor guards against a missing value
with the falsiness test `!config.apiKey`, so the model makes it
optional (with the empty string also falsy). -/
structure VeilMailConfig where
  apiKey : Option String
  baseUrl : Option String
  timeout : Option Nat
deriving DecidableEq, Repr

/-- Default base URL constant from client.ts. -/
def DEFAULT_BASE_URL : String := "https://api.veilmail.xyz"

/-- Default timeout constant from client.ts (milliseconds). -/
def DEFAULT_TIMEOUT : Nat := 30000

/-- The state held by a constructed `HttpClient`. -/
structure HttpClient where
  apiKey : String
  baseUrl : String
  timeout : Nat
deriving DecidableEq, Repr

/-- Falsiness of `config.apiKey`: absent or the empty string. -/
def apiKeyFalsy (apiKey : Option String) : Bool :=
  match apiKey with
  | none => true
  | some v => v = ""

/-- Model of `baseUrl.replace(/\/$/, "")`: remove one trailing slash
when present. -/
def stripTrailingSlash (s : String) : String :=
  if s.endsWith "/" then s.dropRight 1 else s

/-- The `HttpClient` constructor from client.ts: throws (modelled as
`Except.error` carrying the thrown message) when the API key is falsy
or lacks both recognized prefixes; otherwise stores the key, the
trailing-slash-stripped base URL (or the default), and the timeout (or
the default). -/
def HttpClient.create (config : VeilMailConfig) : Except String HttpClient :=
  if apiKeyFalsy config.apiKey then .error "API key is required"
  else
    let key := config.apiKey.getD ""
    if ¬ (jsStartsWith key "veil_live_" || jsStartsWith key "veil_test_") then
      .error
        "Invalid API key format. API keys should start with veil_live_ or veil_test_"
    else
      .ok
        { apiKey := key
          baseUrl := (config.baseUrl.map stripTrailingSlash).getD DEFAULT_BASE_URL
          timeout := config.timeout.getD DEFAULT_TIMEOUT }

/-- The argument of the `VeilMail` constructor: a bare API key string
or a configuration object. -/
inductive ApiKeyOrConfig where
  | key (s : String)
  | config (c : VeilMailConfig)
deriving DecidableEq, Repr

/-- The `VeilMail` constructor: normalizes a bare string to a
configuration object and builds the `HttpClient` synchronously, so any
configuration error surfaces before a request can be issued. -/
def VeilMail.create (arg : ApiKeyOrConfig) : Except String HttpClient :=
  match arg with
  | .key s => HttpClient.create { apiKey := some s, baseUrl := none, timeout := none }
  | .config c => HttpClient.create c

/-- A template variable definition (resources/templates.ts types). The
mapping code never inspects these fields. -/
structure TemplateVariable where
  name : String
  varType : String
  required : Option Bool
deriving DecidableEq, Repr

/-- `CreateTemplateParams`: the `variables` list is optional; the other
fields (name, subject, html, text, type, description) are collected
into `rest` since the mapping code spreads them through unchanged. -/
structure CreateTemplateParams where
  rest : List (String × String)
  variablesField : Option (List TemplateVariable)
deriving DecidableEq, Repr

/-- A template object in wire shape: the `variablesSchema` field plus
the spread-through remaining fields. -/
structure WireTemplate where
  rest : List (String × String)
  variablesSchema : Option (List TemplateVariable)
deriving DecidableEq, Repr

/-- A template object in the public shape: `variables` is always a
list. -/
structure Template where
  rest : List (String × String)
  variablesField : List TemplateVariable
deriving DecidableEq, Repr

/-- The request body built by `Templates.create`:
`{ ...rest, ...(variables && { variablesSchema: variables }) }`. A
defined `variables` array (even empty) is truthy, so `variablesSchema`
is included exactly when `variables` is defined. -/
def Templates.createBody (params : CreateTemplateParams) : WireTemplate :=
  { rest := params.rest, variablesSchema := params.variablesField }

/-- `Templates.mapTemplate`:
`{ ...rest, variables: (variablesSchema || []) }` — an absent (or null)
`variablesSchema` falls back to the empty list; a present array (even
empty, which is truthy) is kept. -/
def Templates.mapTemplate (data : WireTemplate) : Template :=
  { rest := data.rest, variablesField := data.variablesSchema.getD [] }

/-- `Templates.create` under the round-trip scenario hypothesis that
the server stores and returns the created object verbatim: the pair of
the stored wire object (the request body) and the value returned to
the caller (`mapTemplate` of the response data). -/
def Templates.createEcho (params : CreateTemplateParams) :
    WireTemplate × Template :=
  let wire := Templates.createBody params
  (wire, Templates.mapTemplate wire)

/-- `Templates.get`: fetches the stored wire object and applies
`mapTemplate` to the response data. -/
def Templates.getStored (stored : WireTemplate) : Template :=
  Templates.mapTemplate stored

/-- A parsed absolute URL, per the WHATWG URL standard as used by
`new URL(path, baseUrl)` in `HttpClient.request`: a scheme, a host
(with optional port), and a path. The base URLs the client accepts
carry no query or fragment, so those are not modelled on the base. -/
structure UrlModel where
  scheme : String
  host : String
  path : String
deriving DecidableEq, Repr

/-- Split a character list at the first occurrence of `sep`, returning
the parts before and after it, or `none` when `sep` does not occur. -/
def splitFirst (sep : List Char) : List Char → Option (List Char × List Char)
  | [] => if sep.isEmpty then some ([], []) else none
  | c :: rest =>
    if sep.isPrefixOf (c :: rest) then some ([], (c :: rest).drop sep.length)
    else
      match splitFirst sep rest with
      | some (pre, post) => some (c :: pre, post)
      | none => none

/-- Parse an absolute base URL string into its scheme, host and path,
per the URL standard restricted to the hierarchical http(s) URLs the
client accepts: the scheme precedes "://", the host runs to the first
"/" after it, the path is the rest. `none` models the TypeError the
URL constructor throws on an unparsable base. -/
def parseBaseUrl (s : String) : Option UrlModel :=
  match splitFirst "://".toList s.toList with
  | none => none
  | some (scheme, rest) =>
    let host := rest.takeWhile (fun c => c ≠ '/')
    let path := rest.drop host.length
    if scheme.isEmpty || host.isEmpty then none
    else some { scheme := ⟨scheme⟩, host := ⟨host⟩, path := ⟨path⟩ }

/-- Resolution of a reference string against a base, per the URL
standard restricted to what the client produces: a reference starting
with "/" is path-absolute and replaces the base path entirely (the
origin is kept); otherwise the reference is merged onto the base path
with its last segment dropped. Resource paths carry no query or
fragment, so none is split off the reference. -/
def urlResolve (base : UrlModel) (ref : String) : UrlModel :=
  if jsStartsWith ref "/" then { base with path := ref }
  else
    { base with
      path := ⟨(base.path.toList.reverse.dropWhile (fun c => c ≠ '/')).reverse⟩ ++ ref }

/-- A defined query parameter value
(`string | number | boolean`). -/
inductive QueryValue where
  | strVal (v : String)
  | numVal (v : Int)
  | boolVal (v : Bool)
deriving DecidableEq, Repr

/-- `String(value)` on a query value (integer numbers render in
decimal, booleans as true/false). -/
def jsStringConv : QueryValue → String
  | .strVal v => v
  | .numVal v => toString v
  | .boolVal v => if v then "true" else "false"

/-- `URLSearchParams.set`: replace the value of the first parameter
with the given key and drop any later ones, or append when the key is
not present. -/
def searchParamsSet (params : List (String × String)) (key value : String) :
    List (String × String) :=
  match params with
  | [] => [(key, value)]
  | (k, v) :: rest =>
    if k = key then (key, value) :: rest.filter (fun p => p.1 ≠ key)
    else (k, v) :: searchParamsSet rest key value

/-- The query-parameter loop of `HttpClient.request`: iterate the
entries in order, skip `undefined` values, and `set` each defined value
converted with `String(value)`. -/
def addQueryParams (query : List (String × Option QueryValue)) :
    List (String × String) :=
  query.foldl
    (fun ps kv =>
      match kv.2 with
      | none => ps
      | some v => searchParamsSet ps kv.1 (jsStringConv v))
    []

/-- One hex digit (uppercase) for percent-encoding. -/
def percentHexDigit (n : Nat) : Char :=
  if n < 10 then Char.ofNat (48 + n) else Char.ofNat (55 + n)

/-- application/x-www-form-urlencoded serialization of one byte, as
used by `URLSearchParams.toString`: space becomes "+"; ASCII
alphanumerics and "*", "-", ".", "_" stay themselves; every other byte
becomes a percent-escape. -/
def formEncodeByte (b : UInt8) : String :=
  let c := b.toNat
  if c = 32 then "+"
  else if (48 ≤ c ∧ c ≤ 57) ∨ (65 ≤ c ∧ c ≤ 90) ∨ (97 ≤ c ∧ c ≤ 122)
      ∨ c = 42 ∨ c = 45 ∨ c = 46 ∨ c = 95 then
    String.singleton (Char.ofNat c)
  else
    "%" ++ String.singleton (percentHexDigit (c / 16))
      ++ String.singleton (percentHexDigit (c % 16))

/-- Form-urlencode a string: encode each UTF-8 byte. -/
def formUrlEncode (s : String) : String :=
  s.toUTF8.data.foldl (fun acc b => acc ++ formEncodeByte b) ""

/-- `URLSearchParams.toString`: ampersand-joined key=value pairs, both
sides form-urlencoded. -/
def serializeQuery (params : List (String × String)) : String :=
  String.intercalate "&" (params.map (fun p => formUrlEncode p.1 ++ "=" ++ formUrlEncode p.2))

/-- `url.toString()` for a URL with the given search parameters: the
serialized origin and path, then "?" and the serialized query when any
parameter is present. -/
def UrlModel.render (u : UrlModel) (params : List (String × String)) : String :=
  u.scheme ++ "://" ++ u.host ++ u.path ++
    (if params.isEmpty then "" else "?" ++ serializeQuery params)

/-- The URL construction of `HttpClient.request`:
`new URL(path, this.baseUrl)` followed by the query-parameter loop and
`url.toString()`. -/
def buildRequestUrl (baseUrl path : String)
    (query : List (String × Option QueryValue)) : Option String :=
  (parseBaseUrl baseUrl).map
    (fun base => (urlResolve base path).render (addQueryParams query))

/-- The request path used by `Emails.send` (resources/emails.ts). -/
def Emails.sendPath : String := "/v1/emails"

/-- Whether client construction threw. -/
def isErrorResult (r : Except String HttpClient) : Bool :=
  match r with
  | .error _ => true
  | .ok _ => false

/-- The error body `parseApiError` receives for a given response when
the body read succeeds: the content-type-selected parsed body under the
`ApiErrorResponse | null` cast. -/
def responseErrorBody (r : Response) : Option ApiErrorResponse :=
  match (if contentTypeIsJson r.contentTypeHeader then
      r.jsonBody.map RequestValue.jsonVal
    else
      r.textBody.map RequestValue.textVal) with
  | .error _ => none
  | .ok v => castErrorBody v

/-! ## Claims about the error classification routine -/

/-- Claim C1: for every non-2xx response, `parseApiError` classifies by
the status mapping table, independent of the response body shape: 401
authentication, 403 forbidden, 404 not-found, 422 validation or
PII-detected, 429 rate-limited, any status of at least 500 server, and
any other non-2xx status the generic base error carrying the raw code,
message and details drawn from the body. -/
theorem parseApiError_status_mapping (r : Response)
    (body : Option ApiErrorResponse)
    (_hnot2xx : ¬ (200 ≤ r.status ∧ r.status ≤ 299)) :
    (r.status = 401 → (parseApiError r body).kind = .authentication) ∧
    (r.status = 403 → (parseApiError r body).kind = .forbidden) ∧
    (r.status = 404 → (parseApiError r body).kind = .notFound) ∧
    (r.status = 422 → (parseApiError r body).kind = .validation ∨
      (parseApiError r body).kind = .piiDetected) ∧
    (r.status = 429 → (parseApiError r body).kind = .rateLimited) ∧
    (500 ≤ r.status → (parseApiError r body).kind = .server) ∧
    (r.status ≠ 401 → r.status ≠ 403 → r.status ≠ 404 → r.status ≠ 422 →
      r.status ≠ 429 → r.status < 500 →
      parseApiError r body =
        .base (errMessage r body) (errCode body) (some r.status)
          (errDetails body)) := by
  refine ⟨?_, ?_, ?_, ?_, ?_, ?_, ?_⟩
  · intro h; simp [parseApiError, h, VeilMailError.kind]
  · intro h; simp [parseApiError, h, VeilMailError.kind]
  · intro h; simp [parseApiError, h, VeilMailError.kind]
  · intro h
    simp only [parseApiError, h]
    norm_num
    split
    · split <;> simp [VeilMailError.kind]
    · simp [VeilMailError.kind]
  · intro h; simp [parseApiError, h, VeilMailError.kind]
  · intro h
    have h1 : r.status ≠ 401 := by omega
    have h2 : r.status ≠ 403 := by omega
    have h3 : r.status ≠ 404 := by omega
    have h4 : r.status ≠ 422 := by omega
    have h5 : r.status ≠ 429 := by omega
    simp [parseApiError, h1, h2, h3, h4, h5, h, VeilMailError.kind]
  · intro h1 h2 h3 h4 h5 h6
    have h7 : ¬ (500 ≤ r.status) := by omega
    simp [parseApiError, h1, h2, h3, h4, h5, h7]

/-- Witness for C1 at a concrete 503 response. -/
theorem parseApiError_status_mapping_witness :
    (parseApiError
      { status := 503, statusText := "Service Unavailable",
        retryAfterHeader := none, contentTypeHeader := none,
        jsonBody := .ok (.otherVal ""), textBody := .ok "" }
      none).kind = .server :=
  (parseApiError_status_mapping
    { status := 503, statusText := "Service Unavailable",
      retryAfterHeader := none, contentTypeHeader := none,
      jsonBody := .ok (.otherVal ""), textBody := .ok "" }
    none (by decide)).2.2.2.2.2.1 (by decide)

/-- Claim C4: a 422 response whose body carries code pii_detected and a
piiTypes detail list yields a `PiiDetectedError` whose piiTypes equals
that list; every other 422 response yields a `ValidationError` carrying
the body details. -/
theorem parseApiError_pii_classification (r : Response)
    (body : Option ApiErrorResponse) (h422 : r.status = 422) :
    (∀ l, errCode body = "pii_detected" →
      (errDetails body).bind ErrorDetails.piiTypes = some l →
      parseApiError r body = .piiDetectedError (errMessage r body) l) ∧
    (errCode body ≠ "pii_detected" ∨
        (errDetails body).bind ErrorDetails.piiTypes = none →
      parseApiError r body =
        .validationError (errMessage r body) (errDetails body)) := by
  constructor
  · intro l hc hp
    simp [parseApiError, h422, hc, hp]
  · intro h
    rcases h with h | h
    · simp [parseApiError, h422, h]
    · by_cases hc : errCode body = "pii_detected" <;>
        simp [parseApiError, h422, hc, h]

/-- Witness for C4: a concrete 422 pii_detected body with
piiTypes SSN produces a PiiDetectedError carrying that list. -/
theorem parseApiError_pii_classification_witness :
    parseApiError
      ⟨422, "Unprocessable Entity", none, some "application/json",
        .ok (.objectVal (some ⟨some "pii_detected",
          some "PII detected in email body",
          some ⟨some ["SSN"], []⟩⟩) []), .ok ""⟩
      (some ⟨some ⟨some "pii_detected", some "PII detected in email body",
        some ⟨some ["SSN"], []⟩⟩⟩) =
      .piiDetectedError "PII detected in email body" ["SSN"] :=
  (parseApiError_pii_classification
    ⟨422, "Unprocessable Entity", none, some "application/json",
      .ok (.objectVal (some ⟨some "pii_detected",
        some "PII detected in email body",
        some ⟨some ["SSN"], []⟩⟩) []), .ok ""⟩
    (some ⟨some ⟨some "pii_detected", some "PII detected in email body",
      some ⟨some ["SSN"], []⟩⟩⟩)
    rfl).1 ["SSN"] rfl rfl

/-- Claim C5: a 429 response with a Retry-After header parsing as an
integer yields a `RateLimitError` whose retryAfter equals exactly that
integer; with the header absent, retryAfter is absent. -/
theorem parseApiError_retry_after (r : Response)
    (body : Option ApiErrorResponse) (h429 : r.status = 429) :
    (∀ s n, r.retryAfterHeader = some s → s ≠ "" → jsParseInt s = .num n →
      parseApiError r body =
        .rateLimitError (errMessage r body) (some (.num n))) ∧
    (r.retryAfterHeader = none →
      parseApiError r body = .rateLimitError (errMessage r body) none) := by
  constructor
  · intro s n hh hne hp
    simp [parseApiError, h429, hh, hne, hp]
  · intro hh
    simp [parseApiError, h429, hh]

/-- Witness for C5: Retry-After 120 gives retryAfter 120 seconds. -/
theorem parseApiError_retry_after_witness :
    parseApiError
      { status := 429, statusText := "Too Many Requests",
        retryAfterHeader := some "120", contentTypeHeader := none,
        jsonBody := .ok (.otherVal ""), textBody := .ok "" }
      none = .rateLimitError "Too Many Requests" (some (.num 120)) :=
  (parseApiError_retry_after
    { status := 429, statusText := "Too Many Requests",
      retryAfterHeader := some "120", contentTypeHeader := none,
      jsonBody := .ok (.otherVal ""), textBody := .ok "" }
    none rfl).1 "120" 120 rfl (by decide) (by decide)

/-- Claim C9: every validation error built for a 422 response carries
the hardcoded status 400 of the ValidationError constructor, which
differs from the actual response status. -/
theorem validationError_status_mismatch (r : Response)
    (body : Option ApiErrorResponse) (h422 : r.status = 422)
    (hkind : (parseApiError r body).kind = .validation) :
    (parseApiError r body).status = some 400 ∧
    (parseApiError r body).status ≠ some r.status := by
  by_cases hc : errCode body = "pii_detected"
  · cases hp : (errDetails body).bind ErrorDetails.piiTypes with
    | some l =>
      exfalso
      simp [parseApiError, h422, hc, hp, VeilMailError.kind] at hkind
    | none =>
      simp [parseApiError, h422, hc, hp, VeilMailError.status]
  · simp [parseApiError, h422, hc, VeilMailError.status]

/-- Witness for C9 at a concrete 422 response with a plain validation
body. -/
theorem validationError_status_mismatch_witness :
    (parseApiError
      { status := 422, statusText := "Unprocessable Entity",
        retryAfterHeader := none, contentTypeHeader := none,
        jsonBody := .ok (.otherVal ""), textBody := .ok "" }
      none).status = some 400 ∧
    (parseApiError
      { status := 422, statusText := "Unprocessable Entity",
        retryAfterHeader := none, contentTypeHeader := none,
        jsonBody := .ok (.otherVal ""), textBody := .ok "" }
      none).status ≠ some 422 :=
  validationError_status_mismatch
    { status := 422, statusText := "Unprocessable Entity",
      retryAfterHeader := none, contentTypeHeader := none,
      jsonBody := .ok (.otherVal ""), textBody := .ok "" }
    none rfl rfl

/-! ## Claims about client construction -/

/-- Claim C3: construction fails synchronously when the API key is
missing, empty, or carries neither the veil_live_ nor the veil_test_
start, and succeeds when the key carries one of the two; the VeilMail
constructor forwards to the HttpClient constructor, so both fail
identically before any request can be issued. -/
theorem httpClient_key_validation (config : VeilMailConfig) :
    (config.apiKey = none →
      isErrorResult (HttpClient.create config) = true) ∧
    (∀ k, config.apiKey = some k →
      jsStartsWith k "veil_live_" = false → jsStartsWith k "veil_test_" = false →
      isErrorResult (HttpClient.create config) = true) ∧
    (∀ k, config.apiKey = some k →
      (jsStartsWith k "veil_live_" = true ∨ jsStartsWith k "veil_test_" = true) →
      isErrorResult (HttpClient.create config) = false) ∧
    (∀ s, VeilMail.create (.key s) =
      HttpClient.create ⟨some s, none, none⟩) ∧
    (∀ c, VeilMail.create (.config c) = HttpClient.create c) := by
  refine ⟨?_, ?_, ?_, fun s => rfl, fun c => rfl⟩
  · intro h
    simp [HttpClient.create, apiKeyFalsy, h, isErrorResult]
  · intro k hk h1 h2
    by_cases hke : k = ""
    · simp [HttpClient.create, apiKeyFalsy, hk, hke, isErrorResult]
    · simp [HttpClient.create, apiKeyFalsy, hk, hke, h1, h2, isErrorResult]
  · intro k hk hpre
    have hne : k ≠ "" := by
      rcases hpre with hp | hp <;> (intro he; subst he; revert hp; decide)
    rcases hpre with hp | hp <;>
      simp [HttpClient.create, apiKeyFalsy, hk, hne, hp, isErrorResult]

/-- Witness for C3: a missing key and the key abc123 fail, a
veil_test_ key succeeds. -/
theorem httpClient_key_validation_witness :
    isErrorResult (HttpClient.create ⟨none, none, none⟩) = true ∧
    isErrorResult (HttpClient.create ⟨some "abc123", none, none⟩) = true ∧
    isErrorResult (HttpClient.create ⟨some "veil_test_abc", none, none⟩) = false :=
  ⟨(httpClient_key_validation ⟨none, none, none⟩).1 rfl,
   (httpClient_key_validation ⟨some "abc123", none, none⟩).2.1 "abc123" rfl
     (by decide) (by decide),
   (httpClient_key_validation ⟨some "veil_test_abc", none, none⟩).2.2.1
     "veil_test_abc" rfl (Or.inr (by decide))⟩

/-! ## Claim about the templates facade shape mapping -/

/-- Claim C8: `Templates.create` sends the public variables list as the
wire field variablesSchema; both create and get map variablesSchema
back to variables, defaulting to the empty list when absent; and under
a server that returns the created object verbatim, create followed by
get returns identical data. -/
theorem templates_create_get_round_trip (params : CreateTemplateParams)
    (w : WireTemplate) :
    (Templates.createBody params).variablesSchema = params.variablesField ∧
    (Templates.mapTemplate w).variablesField = w.variablesSchema.getD [] ∧
    Templates.getStored (Templates.createEcho params).1 =
      (Templates.createEcho params).2 ∧
    ((Templates.createEcho params).2).variablesField =
      params.variablesField.getD [] :=
  ⟨rfl, rfl, rfl, rfl⟩

/-! ## Claims about the transport pipeline -/

/-- Claim C2: when the configured timeout elapses the abort controller
cancels the fetch, whose AbortError rejection the transport translates
into a TimeoutError whose message carries the configured duration in
milliseconds; an AbortError is never propagated to the caller from any
outcome. -/
theorem request_timeout_translation (timeoutMs : Nat)
    (outcome : FetchOutcome) :
    (∀ e, outcome = .failure e → e.name = "AbortError" →
      request timeoutMs outcome = .err (.timeoutError timeoutMs)) ∧
    ((VeilMailError.timeoutError timeoutMs).message =
      "Request timed out after " ++ toString timeoutMs ++ "ms") ∧
    (∀ e, request timeoutMs outcome = .rethrown e →
      e.name ≠ "AbortError") := by
  refine ⟨?_, rfl, ?_⟩
  · intro e h hn
    subst h
    simp [request, handleCaught, hn]
  · intro e h hn
    cases outcome with
    | failure f =>
      by_cases hf : f.name = "AbortError"
      · simp [request, handleCaught, hf] at h
      · by_cases ht : f.name = "TypeError" ∧ jsIncludes f.message "fetch" = true
        · simp [request, handleCaught, hf, ht] at h
        · simp [request, handleCaught, hf, ht] at h
          subst h
          exact hf hn
    | success r =>
      simp only [request] at h
      split at h
      · simp at h
      · split at h
        · rename_i e' heq
          by_cases hf : e'.name = "AbortError"
          · simp [handleCaught, hf] at h
          · by_cases ht : e'.name = "TypeError" ∧ jsIncludes e'.message "fetch" = true
            · simp [handleCaught, hf, ht] at h
            · simp [handleCaught, hf, ht] at h
              subst h
              exact hf hn
        · split at h
          · simp at h
          · simp at h

/-- Witness for C2: an AbortError fetch rejection under a 50ms timeout
becomes a TimeoutError carrying 50ms in its message. -/
theorem request_timeout_translation_witness :
    request 50 (.failure ⟨"AbortError", "This operation was aborted"⟩) =
      .err (.timeoutError 50) ∧
    (VeilMailError.timeoutError 50).message = "Request timed out after 50ms" :=
  ⟨(request_timeout_translation 50
      (.failure ⟨"AbortError", "This operation was aborted"⟩)).1
      ⟨"AbortError", "This operation was aborted"⟩ rfl rfl,
   (request_timeout_translation 50
      (.failure ⟨"AbortError", "This operation was aborted"⟩)).2.1⟩

/-- Claim C7: a 204 response resolves to undefined with no body parse
(so it can never produce a parse error, whatever the body holds), and
any other successful response whose content-type does not indicate
JSON resolves to the raw text without throwing. -/
theorem request_204_and_raw_text (timeoutMs : Nat) (r : Response) :
    (r.status = 204 → request timeoutMs (.success r) = .ok .undefinedVal) ∧
    (∀ s, contentTypeIsJson r.contentTypeHeader = false →
      responseOk r.status = true → r.status ≠ 204 →
      r.textBody = .ok s →
      request timeoutMs (.success r) = .ok (.textVal s)) := by
  constructor
  · intro h
    simp [request, h]
  · intro s hct hok h204 htext
    simp [request, h204, hct, htext, hok, Except.map]

/-- Witness for C7: a 204 whose JSON body read would fail still
resolves to undefined, and a 200 text/plain response resolves to its
raw text. -/
theorem request_204_and_raw_text_witness :
    request 30000 (.success ⟨204, "No Content", none,
      some "application/json",
      .error ⟨"SyntaxError", "Unexpected end of JSON input"⟩, .ok ""⟩) =
      .ok .undefinedVal ∧
    request 30000 (.success ⟨200, "OK", none, some "text/plain",
      .error ⟨"SyntaxError", "Unexpected token"⟩, .ok "hello"⟩) =
      .ok (.textVal "hello") :=
  ⟨(request_204_and_raw_text 30000 ⟨204, "No Content", none,
      some "application/json",
      .error ⟨"SyntaxError", "Unexpected end of JSON input"⟩, .ok ""⟩).1 rfl,
   (request_204_and_raw_text 30000 ⟨200, "OK", none, some "text/plain",
      .error ⟨"SyntaxError", "Unexpected token"⟩, .ok "hello"⟩).2 "hello"
      (by decide) (by decide) (by decide) rfl⟩

/-! ## The error message invariant -/

theorem append_ne_empty (a b : String) (h : a.length ≠ 0) : a ++ b ≠ "" := by
  intro hc
  have hlen : (a ++ b).length = 0 := by rw [hc]; rfl
  rw [String.length_append] at hlen
  omega

theorem timeoutError_message_ne (t : Nat) :
    (VeilMailError.timeoutError t).message ≠ "" := by
  show ("Request timed out after " ++ toString t ++ "ms") ≠ ""
  apply append_ne_empty
  rw [String.length_append]
  have h24 : "Request timed out after ".length = 24 := rfl
  omega

theorem networkError_prefixed_message_ne (m : String) :
    (VeilMailError.networkError ("Network error: " ++ m)).message ≠ "" := by
  show ("Network error: " ++ m) ≠ ""
  apply append_ne_empty
  decide

theorem handleCaught_err_message_ne (t : Nat) (f : JsError)
    (e : VeilMailError) (h : handleCaught t f = .err e) : e.message ≠ "" := by
  by_cases hf : f.name = "AbortError"
  · simp [handleCaught, hf] at h
    subst h
    exact timeoutError_message_ne t
  · by_cases ht : f.name = "TypeError" ∧ jsIncludes f.message "fetch" = true
    · simp [handleCaught, hf, ht] at h
      subst h
      exact networkError_prefixed_message_ne f.message
    · simp [handleCaught, hf, ht] at h

theorem parseApiError_message_ne (r : Response)
    (body : Option ApiErrorResponse) (h : errMessage r body ≠ "") :
    (parseApiError r body).message ≠ "" := by
  simp only [parseApiError]
  split
  · simpa [VeilMailError.message] using h
  split
  · simpa [VeilMailError.message] using h
  split
  · decide
  split
  · split
    · split
      · simpa [VeilMailError.message] using h
      · simpa [VeilMailError.message] using h
    · simpa [VeilMailError.message] using h
  split
  · simpa [VeilMailError.message] using h
  split
  · simpa [VeilMailError.message] using h
  · simpa [VeilMailError.message] using h

/-- Counterexample to claim C6 as stated: a 401 response with empty
status text and no error body yields an AuthenticationError whose
message is the empty string (statusText is empty in practice for
HTTP/2 responses). -/
theorem parseApiError_empty_message :
    (parseApiError ⟨401, "", none, none, .ok (.otherVal "null"), .ok ""⟩
      none).message = "" := rfl

/-- Claim C6 (amended): every error the transport produces carries a
non-empty message, provided that for a settled response the message
source of the classification routine (the body error message, else the
status text) is non-empty; errors born from fetch rejections (timeout,
network) carry unconditionally non-empty constructed messages. -/
theorem library_error_message_nonempty (timeoutMs : Nat)
    (outcome : FetchOutcome) (e : VeilMailError)
    (h : request timeoutMs outcome = .err e)
    (hsrc : ∀ r, outcome = .success r →
      errMessage r (responseErrorBody r) ≠ "") :
    e.message ≠ "" := by
  cases outcome with
  | failure f =>
    simp only [request] at h
    exact handleCaught_err_message_ne timeoutMs f e h
  | success r =>
    have hmsg := hsrc r rfl
    simp only [request] at h
    split at h
    · simp at h
    · split at h
      · rename_i e' heq
        exact handleCaught_err_message_ne timeoutMs e' e h
      · rename_i v heq
        split at h
        · simp at h
        · simp only [RequestResult.err.injEq] at h
          subst h
          have hbody : responseErrorBody r = castErrorBody v := by
            simp [responseErrorBody, heq]
          apply parseApiError_message_ne
          rw [← hbody]
          exact hmsg

/-- Witness for the amended C6: the timeout error of a 50ms abort has a
non-empty message. -/
theorem library_error_message_nonempty_witness :
    (VeilMailError.timeoutError 50).message ≠ "" :=
  library_error_message_nonempty 50
    (.failure ⟨"AbortError", "This operation was aborted"⟩)
    (.timeoutError 50) rfl (fun _ hr => FetchOutcome.noConfusion hr)

/-! ## URL construction -/

theorem searchParamsSet_append (ps : List (String × String)) (k v : String)
    (h : ∀ p ∈ ps, p.1 ≠ k) : searchParamsSet ps k v = ps ++ [(k, v)] := by
  induction ps with
  | nil => rfl
  | cons hd tl ih =>
    obtain ⟨k1, v1⟩ := hd
    have hk1 : k1 ≠ k := h (k1, v1) (List.mem_cons_self _ _)
    simp only [searchParamsSet, hk1, if_false, List.cons_append]
    rw [ih (fun p hp => h p (List.mem_cons_of_mem _ hp))]

theorem addQuery_go (query : List (String × Option QueryValue))
    (acc : List (String × String))
    (hnodup : (query.map Prod.fst).Nodup)
    (hdisj : ∀ p ∈ acc, ∀ q ∈ query, p.1 ≠ q.1) :
    List.foldl
      (fun ps kv =>
        match kv.2 with
        | none => ps
        | some v => searchParamsSet ps kv.1 (jsStringConv v))
      acc query
      = acc ++ query.filterMap
          (fun kv => kv.2.map (fun v => (kv.1, jsStringConv v))) := by
  induction query generalizing acc with
  | nil => simp
  | cons hd tl ih =>
    obtain ⟨k, vo⟩ := hd
    have hnodup2 : (k :: tl.map Prod.fst).Nodup := hnodup
    have hparts := List.nodup_cons.mp hnodup2
    have hk_tl : ∀ q ∈ tl, k ≠ q.1 := by
      intro q hq he
      exact hparts.1 (he ▸ List.mem_map_of_mem Prod.fst hq)
    cases vo with
    | none =>
      simp only [List.foldl_cons]
      have hdisj2 : ∀ p ∈ acc, ∀ q ∈ tl, p.1 ≠ q.1 :=
        fun p hp q hq => hdisj p hp q (List.mem_cons_of_mem _ hq)
      rw [ih acc hparts.2 hdisj2]
      simp [List.filterMap_cons]
    | some v =>
      simp only [List.foldl_cons]
      rw [searchParamsSet_append acc k (jsStringConv v)
        (fun p hp => hdisj p hp (k, some v) (List.mem_cons_self _ _))]
      have hdisj2 : ∀ p ∈ acc ++ [(k, jsStringConv v)], ∀ q ∈ tl, p.1 ≠ q.1 := by
        intro p hp q hq
        rcases List.mem_append.mp hp with h1 | h1
        · exact hdisj p h1 q (List.mem_cons_of_mem _ hq)
        · have : p = (k, jsStringConv v) := by simpa using h1
          subst this
          exact hk_tl q hq
      rw [ih (acc ++ [(k, jsStringConv v)]) hparts.2 hdisj2]
      simp [List.filterMap_cons]

theorem addQueryParams_nodup (query : List (String × Option QueryValue))
    (hnodup : (query.map Prod.fst).Nodup) :
    addQueryParams query =
      query.filterMap (fun kv => kv.2.map (fun v => (kv.1, jsStringConv v))) := by
  unfold addQueryParams
  rw [addQuery_go query [] hnodup (by simp)]
  simp

/-- Claim C10: the request URL resolves the path against the base URL
with URL-constructor semantics, so a resource path beginning with "/"
keeps only the origin of the base and discards any base path component
(e.g. the /api of https://proxy.example.com/api); undefined query
parameters are omitted and defined ones appended as url-encoded
key/value pairs. -/
theorem request_url_resolution (base : UrlModel) (path : String)
    (query : List (String × Option QueryValue))
    (hpath : jsStartsWith path "/" = true)
    (hkeys : (query.map Prod.fst).Nodup) :
    (urlResolve base path).scheme = base.scheme ∧
    (urlResolve base path).host = base.host ∧
    (urlResolve base path).path = path ∧
    parseBaseUrl "https://proxy.example.com/api" =
      some { scheme := "https", host := "proxy.example.com", path := "/api" } ∧
    buildRequestUrl "https://proxy.example.com/api" path query =
      some ("https://proxy.example.com" ++ path ++
        (if (addQueryParams query).isEmpty then ""
         else "?" ++ serializeQuery (addQueryParams query))) ∧
    addQueryParams query =
      query.filterMap (fun kv => kv.2.map (fun v => (kv.1, jsStringConv v))) ∧
    jsStartsWith Emails.sendPath "/" = true := by
  have hb : parseBaseUrl "https://proxy.example.com/api" =
      some { scheme := "https", host := "proxy.example.com", path := "/api" } := by
    decide
  refine ⟨?_, ?_, ?_, hb, ?_, addQueryParams_nodup query hkeys, by decide⟩
  · simp [urlResolve, hpath]
  · simp [urlResolve, hpath]
  · simp [urlResolve, hpath]
  · simp only [buildRequestUrl, hb, Option.map]
    simp only [urlResolve, hpath, if_pos, UrlModel.render]
    rfl

/-- Witness for C10: a base URL with a path component and a query with
one defined and one undefined parameter. -/
theorem request_url_resolution_witness :
    buildRequestUrl "https://proxy.example.com/api" "/v1/emails"
      [("limit", some (.numVal 1)), ("cursor", none)] =
      some "https://proxy.example.com/v1/emails?limit=1" := by
  have h := (request_url_resolution ⟨"https", "x", "/p"⟩ "/v1/emails"
      [("limit", some (.numVal 1)), ("cursor", none)]
      (by decide) (by decide)).2.2.2.2.1
  rw [h]
  rfl

end VeilMailSdk
